import Mathlib

/-!
Shallow embedding of the redux-api-middleware source (src/unnamed/part_001):
the `createApiMiddleware` factory, the `apiMiddleware` interceptor it returns,
and the `apiRequest` action builder.

Modelling conventions:
* JavaScript values are the inductive `Value`; objects are association lists
  (`List (String × Value)`) in insertion order, first entry wins on lookup
  (JS object literals never hold duplicate keys, and none of our constructions
  introduce one).
* Property access on a non-object yields `undefined`; the one place the source can
  access a property of `null`/`undefined` — the `res.json` capability probe —
  is modelled explicitly in `normalizeRes`, which throws (`Except.error`) on a
  nullish resolved value, exactly as the JS probe does.
* Functions cannot be stored inside `Value` (positivity), so the two
  continuation slots `onSuccess`/`onFailure` are carried alongside the plain
  fields of a payload, as `Option (Value → Value)`; `none` covers both an
  absent member and a non-callable one, which the source treats identically
  via `isFunction`.  Continuations are modelled as total functions: the spec
  places a throwing `onSuccess`/`onFailure` out of scope.
* A promise chain is deterministic given the request primitive's outcome, so
  the interceptor is a pure function from (config, action, request outcome) to
  a `StepResult`: the ordered dispatch log, the `(url, options)` calls made to
  the request primitive, and the settled value of the returned promise.
  `Except Value Value` models a settled promise (`error` = rejected).
* Synchronous throws (`logError`) are modelled as `Except.error msg` at the
  call that throws, which is why `createApiMiddleware` and `apiRequest` return
  `Except String _`.
-/

/-- A JavaScript value, as far as the middleware observes one.  `err` stands
for an `Error` object (only its message is modelled). -/
inductive Value where
  | undefined
  | null
  | str (s : String)
  | num (n : Int)
  | bool (b : Bool)
  | obj (fields : List (String × Value))
  | err (msg : String)

/-- JS truthiness, as used by `if (type)` and `if (!request)` in the source. -/
def Value.truthy : Value → Bool
  | .undefined => false
  | .null => false
  | .str s => s != ""
  | .num n => n != 0
  | .bool b => b
  | .obj _ => true
  | .err _ => true

/-- `isString` from the source: `typeof str == 'string'`. -/
def Value.isString : Value → Bool
  | .str _ => true
  | _ => false

/-- `null` or `undefined`: the values on which a property access throws. -/
def Value.isNullish : Value → Bool
  | .null => true
  | .undefined => true
  | _ => false

/-- First-match lookup in an association-list object. -/
def lookupField : List (String × Value) → String → Option Value
  | [], _ => none
  | kv :: rest, key => if kv.1 = key then some kv.2 else lookupField rest key

/-- Property read on an object's field list; a missing key reads as
`undefined`, as in JS. -/
def getField (fields : List (String × Value)) (key : String) : Value :=
  (lookupField fields key).getD .undefined

/-- Property read on a `Value` known (at the call sites the source has) to be
an object; reads on non-objects yield `undefined`. -/
def Value.getProp : Value → String → Value
  | .obj fields, key => getField fields key
  | _, _ => .undefined

/-- The own enumerable properties `Object.assign` copies from a source value:
an object's fields; primitives and nullish sources contribute nothing.
(String index properties are not modelled; no call site passes a string.) -/
def sourceFields : Value → List (String × Value)
  | .obj fields => fields
  | _ => []

/-- How `Object.assign` updates one existing entry of the target from the
source `b`: a colliding key takes `b`'s value in place. -/
def assignEntry (b : List (String × Value)) (kv : String × Value) : String × Value :=
  match lookupField b kv.1 with
  | some w => (kv.1, w)
  | none => kv

/-- `Object.assign({}, a, b)` on field lists: `a`'s keys keep their positions
(values overridden by `b` on collision), then `b`'s new keys follow in order. -/
def assignFields (a b : List (String × Value)) : List (String × Value) :=
  a.map (assignEntry b) ++ b.filter (fun kv => (lookupField a kv.1).isNone)

/-- The `defaults` constant of the source. -/
def defaultsFields : List (String × Value) :=
  [("actionTypes", .obj [("start", .str "API_REQUEST_START"),
                         ("end", .str "API_REQUEST_END"),
                         ("failure", .str "API_REQUEST_FAILURE")]),
   ("requestDefaults", .obj [])]

/-- Outcome of awaiting the `res.json()` promise. -/
inductive JsonOutcome where
  | resolve (v : Value)
  | reject (e : Value)

/-- The value a request promise resolves with, as the `res.json` probe sees
it: either a value with no callable `json` member (`plain` — this includes
`null`/`undefined`, on which the probe itself throws), or a response wrapper
exposing a callable `json` member whose invocation settles as `j`. -/
inductive Resolved where
  | plain (v : Value)
  | withJson (wrapper : Value) (j : JsonOutcome)

/-- Outcome of the promise returned by the request primitive. -/
inductive ReqResult where
  | resolve (r : Resolved)
  | reject (e : Value)

/-- A deterministic model of the request primitive: its settled outcome as a
function of the `(url, options)` arguments it receives. -/
def RequestFn : Type := Value → List (String × Value) → ReqResult

/-- A request primitive whose promise settles the same way on every call. -/
def constReq (r : ReqResult) : RequestFn := fun _ _ => r

/-- The first argument of `createApiMiddleware`: either absent (falsy, the
`!request` guard fires) or a request primitive. -/
inductive RequestArg where
  | missing
  | present (f : RequestFn)

/-- The closure state captured by the returned `apiMiddleware`. -/
structure Middleware where
  request : RequestFn
  options : List (String × Value)

/-- `logError` message of the factory guard. -/
def missingRequestMsg : String :=
  "Missing a request object as the first argument. Try passing `fetch` or `axios`"

/-- `createApiMiddleware(request, options = {})`: throws synchronously when the
request argument is missing, otherwise closes over `request` and `options` and
returns the middleware. -/
def createApiMiddleware (request : RequestArg) (options : List (String × Value)) :
    Except String Middleware :=
  match request with
  | .missing => .error missingRequestMsg
  | .present f => .ok { request := f, options := options }

/-- The payload of a Tagged Action: its plain-valued fields (`type`, `url` and
the open options bag) plus the two continuation slots.  `fields` never carries
an "onSuccess"/"onFailure" key: a callable one lives in the `Option` slot and
a non-callable one behaves as absent throughout the source. -/
structure Payload where
  fields : List (String × Value)
  onSuccess : Option (Value → Value)
  onFailure : Option (Value → Value)

/-- An action arriving at the interceptor, split by the `!action.API` gate:
`untagged` is any action whose `API` member is falsy, `tagged` is
`{API: {payload: p}}`. -/
inductive MWAction where
  | untagged (a : Value)
  | tagged (p : Payload)

/-- What the interceptor returns to the dispatch caller: `next(action)`'s
value on the pass-through path, or a settled promise on the intercepted path. -/
inductive RetVal where
  | sync (v : Value)
  | promise (o : Except Value Value)

/-- Observable effect of one interceptor run: the dispatch log in order, the
`(url, options)` invocations of the request primitive, and the return value. -/
structure StepResult where
  dispatched : List Value
  requestCalls : List (Value × List (String × Value))
  ret : RetVal

/-- The keys destructured out of the payload; the rest becomes `restConfig`. -/
def reservedKeys : List String := ["type", "url", "onSuccess", "onFailure"]

/-- `...restConfig` of the destructuring: every payload field other than
`type`, `url`, `onSuccess`, `onFailure`. -/
def restConfigOf (fields : List (String × Value)) : List (String × Value) :=
  fields.filter (fun kv => !(reservedKeys.contains kv.1))

/-- The error thrown by the capability probe `res.json` when `res` is nullish. -/
def jsonProbeError : Value :=
  .err "TypeError: Cannot read properties of null or undefined (reading json)"

/-- The first `.then` handler: `res => isFunction(res.json) ? res.json() : res`.
On a nullish `res` the member access itself throws, rejecting the chain. -/
def normalizeRes : Resolved → Except Value Value
  | .plain v => if v.isNullish then .error jsonProbeError else .ok v
  | .withJson _ j =>
    match j with
    | .resolve v => .ok v
    | .reject e => .error e

/-- The per-action interceptor `next => action => ...` of `apiMiddleware`,
run to completion.  Mirrors the source: gate on `action.API`; destructure the
payload; dispatch the start action when `type` is truthy; build the request
options as `Object.assign({}, options.requestDefaults, restConfig)` (the empty
target is a no-op and is elided); call the request primitive; normalizeRes; run
the success or failure `.then` handler; run the `.finally` end dispatch. -/
def intercept (m : Middleware) (next : Value → Value) (a : MWAction) : StepResult :=
  match a with
  | .untagged act => ⟨[], [], .sync (next act)⟩
  | .tagged p =>
    let opts := assignFields defaultsFields m.options
    let ty := getField p.fields "type"
    let url := getField p.fields "url"
    let restConfig := restConfigOf p.fields
    let startLog : List Value :=
      if ty.truthy then
        [.obj [("type", (getField opts "actionTypes").getProp "start"), ("payload", ty)]]
      else []
    let requestOptions :=
      assignFields (sourceFields (getField m.options "requestDefaults")) restConfig
    let normalized : Except Value Value :=
      match m.request url requestOptions with
      | .reject e => .error e
      | .resolve r => normalizeRes r
    let endLog : List Value :=
      if ty.truthy then
        [.obj [("type", (getField opts "actionTypes").getProp "end"), ("payload", ty)]]
      else []
    match normalized with
    | .ok res =>
      let succLog : List Value :=
        match p.onSuccess with
        | some f => [f res]
        | none => []
      ⟨startLog ++ succLog ++ endLog, [(url, requestOptions)], .promise (.ok res)⟩
    | .error e =>
      let failLog : List Value :=
        (if ty.truthy then
          [.obj [("type", (getField opts "actionTypes").getProp "failure"),
                 ("payload", e), ("error", .bool true)]]
         else []) ++
        (match p.onFailure with
         | some f => [f e]
         | none => [])
      ⟨startLog ++ failLog ++ endLog, [(url, requestOptions)], .promise (.ok .undefined)⟩

/-- The options bag of `apiRequest`, split like `Payload` (see there): plain
fields — which may include "type" and free-form extras — plus the two
continuation slots. -/
structure OptionsBag where
  fields : List (String × Value)
  onSuccess : Option (Value → Value)
  onFailure : Option (Value → Value)

/-- The empty options bag: `apiRequest`'s `{}` default. -/
def emptyBag : OptionsBag := ⟨[], none, none⟩

/-- `logError` message of the action builder guard. -/
def apiRequestMsg : String := "apiRequest requires a string as the first argument"

/-- `apiRequest(url, {type, ...rest} = {})`: throws synchronously unless `url`
is a string, otherwise builds `{API: {payload: {type, url, ...rest}}}`.  The
literal-then-spread is `assignFields`, so a `url` key smuggled into the rest
would override the first argument exactly as in JS. -/
def apiRequest (url : Value) (options : OptionsBag) : Except String MWAction :=
  if !url.isString then .error apiRequestMsg
  else
    let ty := getField options.fields "type"
    let rest := options.fields.filter (fun kv => kv.1 != "type")
    .ok (.tagged ⟨assignFields [("type", ty), ("url", url)] rest,
                  options.onSuccess, options.onFailure⟩)

/-- Whether a builder/factory call succeeded (did not throw). -/
def isOkE {α : Type} (x : Except String α) : Bool :=
  match x with
  | .ok _ => true
  | .error _ => false

/-- A concrete success continuation, used by witnesses. -/
def okCont : Value → Value := fun v => .obj [("type", .str "SUCCESS"), ("payload", v)]

/-- A concrete failure continuation, used by witnesses. -/
def errCont : Value → Value := fun e => .obj [("type", .str "FAILURE"), ("payload", e)]

/-- Claim C7: for every action lacking the recognized envelope field, the
interceptor returns exactly `next(action)`, performs no dispatches of its own
and makes no request call — a pure identity pass-through. -/
theorem untagged_passthrough (m : Middleware) (next : Value → Value) (a : Value) :
    intercept m next (.untagged a) = ⟨[], [], .sync (next a)⟩ := rfl

/-- Claim C8: for every configuration object (including none, `[]`), invoking
`createApiMiddleware` without a request primitive throws synchronously at
factory-creation time (`Except.error`, so no `Middleware` — and hence no
interceptor — is ever produced). -/
theorem createApiMiddleware_missing_request (options : List (String × Value)) :
    createApiMiddleware .missing options = .error missingRequestMsg := rfl

/-- Claim C2, counterexample: the empty string is a string, so
`apiRequest("", {})` does *not* fail — it successfully constructs a Tagged
Action, contradicting the claim that every url that is not a *non-empty*
string fails at construction time. -/
theorem apiRequest_empty_string_accepted :
    apiRequest (.str "") emptyBag =
      .ok (.tagged ⟨[("type", .undefined), ("url", .str "")], none, none⟩) := rfl

/-- Claim C2, amended: `apiRequest` fails fatally and synchronously exactly
when `url` is not a string (absent, i.e. `undefined`, or of wrong type); a
string url — including the empty string — always yields a Tagged Action.
`isOkE = false` means the synchronous throw happened and no action was built,
so the failure is never deferred into the dispatch chain. -/
theorem apiRequest_error_iff_not_string (url : Value) (options : OptionsBag) :
    isOkE (apiRequest url options) = url.isString := by
  cases url <;> rfl

/-- Claim C1, counterexample: with configuration
`{actionTypes: {start: "START"}}` the supplied start label is used, but the
failure and end lifecycle actions carry label `undefined` — not the documented
defaults `"API_REQUEST_FAILURE"` / `"API_REQUEST_END"` — because the config
merge is a shallow `Object.assign` that replaces the whole `actionTypes`
record. -/
theorem actionTypes_override_counterexample :
    (intercept ⟨constReq (.reject (.str "E")),
        [("actionTypes", .obj [("start", .str "START")])]⟩ id
      (.tagged ⟨[("type", .str "T"), ("url", .str "/u")], none, none⟩)).dispatched =
      [.obj [("type", .str "START"), ("payload", .str "T")],
       .obj [("type", .undefined), ("payload", .str "E"), ("error", .bool true)],
       .obj [("type", .undefined), ("payload", .str "T")]] ∧
    Value.undefined ≠ .str "API_REQUEST_FAILURE" ∧ Value.undefined ≠ .str "API_REQUEST_END" :=
  ⟨rfl, fun h => Value.noConfusion h, fun h => Value.noConfusion h⟩

/-- Claim C1, amended: a configured `actionTypes` object replaces the default
record wholesale (the merge is shallow): `{actionTypes: {start: "START"}}`
uses `"START"` for the start action while the end and failure actions get an
`undefined` label instead of their documented defaults.  (Top-level fields that
are entirely unspecified, such as `requestDefaults` here, do still fall back
individually.) -/
theorem actionTypes_shallow_merge (e u : Value) :
    (intercept ⟨constReq (.reject e),
        [("actionTypes", .obj [("start", .str "START")])]⟩ id
      (.tagged ⟨[("type", .str "T"), ("url", u)], none, none⟩)).dispatched =
      [.obj [("type", .str "START"), ("payload", .str "T")],
       .obj [("type", .undefined), ("payload", e), ("error", .bool true)],
       .obj [("type", .undefined), ("payload", .str "T")]] := rfl

/-- Claim C4: for every intercepted Tagged Action, the interceptor's returned
promise settles as fulfilled (`.ok`), never rejected: with `undefined` when
the request promise rejects or the json-decode stage rejects, and with the
normalized response payload (the plain resolved value, or the decoded result
when a callable `json` member exists) on success. -/
theorem interceptor_outcome_resolution (options fields : List (String × Value))
    (os of : Option (Value → Value)) (e v w d : Value) (hv : v.isNullish = false)
    (next : Value → Value) :
    (intercept ⟨constReq (.reject e), options⟩ next
        (.tagged ⟨fields, os, of⟩)).ret = .promise (.ok .undefined) ∧
    (intercept ⟨constReq (.resolve (.withJson w (.reject e))), options⟩ next
        (.tagged ⟨fields, os, of⟩)).ret = .promise (.ok .undefined) ∧
    (intercept ⟨constReq (.resolve (.plain v)), options⟩ next
        (.tagged ⟨fields, os, of⟩)).ret = .promise (.ok v) ∧
    (intercept ⟨constReq (.resolve (.withJson w (.resolve d))), options⟩ next
        (.tagged ⟨fields, os, of⟩)).ret = .promise (.ok d) := by
  refine ⟨rfl, rfl, ?_, rfl⟩
  simp [intercept, constReq, normalizeRes, hv]

/-- Witness for C4 at concrete inputs. -/
theorem interceptor_outcome_resolution_witness :
    (Value.str "R").isNullish = false ∧
    ((intercept ⟨constReq (.reject (.str "E")), []⟩ id
        (.tagged ⟨[("url", .str "/u")], some okCont, some errCont⟩)).ret =
          .promise (.ok .undefined) ∧
     (intercept ⟨constReq (.resolve (.withJson (.obj []) (.reject (.str "E")))), []⟩ id
        (.tagged ⟨[("url", .str "/u")], some okCont, some errCont⟩)).ret =
          .promise (.ok .undefined) ∧
     (intercept ⟨constReq (.resolve (.plain (.str "R"))), []⟩ id
        (.tagged ⟨[("url", .str "/u")], some okCont, some errCont⟩)).ret =
          .promise (.ok (.str "R")) ∧
     (intercept ⟨constReq (.resolve (.withJson (.obj []) (.resolve (.str "J")))), []⟩ id
        (.tagged ⟨[("url", .str "/u")], some okCont, some errCont⟩)).ret =
          .promise (.ok (.str "J"))) :=
  ⟨by decide,
   interceptor_outcome_resolution [] [("url", .str "/u")] (some okCont) (some errCont)
     (.str "E") (.str "R") (.obj []) (.str "J") (by decide) id⟩

/-- Claim C9: a Tagged Action whose `type` is absent (falsy) and which carries
no callable `onSuccess`/`onFailure` produces no dispatches at all, whatever
the request outcome — success, rejection, json-decode, or nullish response. -/
theorem no_type_no_callbacks_no_dispatch (options fields : List (String × Value))
    (hty : (getField fields "type").truthy = false) (r : ReqResult)
    (next : Value → Value) :
    (intercept ⟨constReq r, options⟩ next (.tagged ⟨fields, none, none⟩)).dispatched = [] := by
  cases r with
  | reject e => simp [intercept, constReq, hty]
  | resolve rr =>
    cases rr with
    | plain v =>
      cases hnv : v.isNullish <;> simp [intercept, constReq, normalizeRes, hty, hnv]
    | withJson w j => cases j <;> simp [intercept, constReq, normalizeRes, hty]

/-- Witness for C9 at concrete inputs. -/
theorem no_type_no_callbacks_no_dispatch_witness :
    (getField [("url", .str "/u"), ("option", .str "value")] "type").truthy = false ∧
    (intercept ⟨constReq (.reject (.str "E")), []⟩ id
      (.tagged ⟨[("url", .str "/u"), ("option", .str "value")], none, none⟩)).dispatched = [] :=
  ⟨by decide,
   no_type_no_callbacks_no_dispatch [] [("url", .str "/u"), ("option", .str "value")]
     (by decide) (.reject (.str "E")) id⟩

/-- Claim C3: for a Tagged Action carrying a (truthy) correlation type under
the default configuration, a failing outcome dispatches exactly
START, FAILURE, then `onFailure`'s action (when callable), then END; a
successful outcome (plain or json-decoded) dispatches exactly START, then
`onSuccess`'s action (when callable), then END. -/
theorem dispatch_order_with_type (t : String) (ht : (t != "") = true)
    (u : Value) (extra : List (String × Value)) (os of : Option (Value → Value))
    (e v w d : Value) (hv : v.isNullish = false) (next : Value → Value) :
    (intercept ⟨constReq (.reject e), []⟩ next
        (.tagged ⟨("type", .str t) :: ("url", u) :: extra, os, of⟩)).dispatched =
      .obj [("type", .str "API_REQUEST_START"), ("payload", .str t)] ::
      .obj [("type", .str "API_REQUEST_FAILURE"), ("payload", e), ("error", .bool true)] ::
      ((of.map (fun f => f e)).toList ++
        [.obj [("type", .str "API_REQUEST_END"), ("payload", .str t)]]) ∧
    (intercept ⟨constReq (.resolve (.plain v)), []⟩ next
        (.tagged ⟨("type", .str t) :: ("url", u) :: extra, os, of⟩)).dispatched =
      .obj [("type", .str "API_REQUEST_START"), ("payload", .str t)] ::
      ((os.map (fun f => f v)).toList ++
        [.obj [("type", .str "API_REQUEST_END"), ("payload", .str t)]]) ∧
    (intercept ⟨constReq (.resolve (.withJson w (.resolve d))), []⟩ next
        (.tagged ⟨("type", .str t) :: ("url", u) :: extra, os, of⟩)).dispatched =
      .obj [("type", .str "API_REQUEST_START"), ("payload", .str t)] ::
      ((os.map (fun f => f d)).toList ++
        [.obj [("type", .str "API_REQUEST_END"), ("payload", .str t)]]) := by
  refine ⟨?_, ?_, ?_⟩ <;>
    cases os <;> cases of <;>
      simp [intercept, constReq, normalizeRes, Value.truthy, getField, lookupField,
            Value.getProp, defaultsFields, assignFields, assignEntry, sourceFields,
            ht, hv]

/-- Witness for C3 at concrete inputs. -/
theorem dispatch_order_with_type_witness :
    (("T" != "") = true ∧ (Value.str "R").isNullish = false) ∧
    ((intercept ⟨constReq (.reject (.str "E")), []⟩ id
        (.tagged ⟨("type", .str "T") :: ("url", .str "/u") :: [("option", .str "value")],
                  some okCont, some errCont⟩)).dispatched =
      .obj [("type", .str "API_REQUEST_START"), ("payload", .str "T")] ::
      .obj [("type", .str "API_REQUEST_FAILURE"), ("payload", .str "E"), ("error", .bool true)] ::
      (((some errCont).map (fun f => f (.str "E"))).toList ++
        [.obj [("type", .str "API_REQUEST_END"), ("payload", .str "T")]]) ∧
     (intercept ⟨constReq (.resolve (.plain (.str "R"))), []⟩ id
        (.tagged ⟨("type", .str "T") :: ("url", .str "/u") :: [("option", .str "value")],
                  some okCont, some errCont⟩)).dispatched =
      .obj [("type", .str "API_REQUEST_START"), ("payload", .str "T")] ::
      (((some okCont).map (fun f => f (.str "R"))).toList ++
        [.obj [("type", .str "API_REQUEST_END"), ("payload", .str "T")]]) ∧
     (intercept ⟨constReq (.resolve (.withJson (.obj []) (.resolve (.str "J")))), []⟩ id
        (.tagged ⟨("type", .str "T") :: ("url", .str "/u") :: [("option", .str "value")],
                  some okCont, some errCont⟩)).dispatched =
      .obj [("type", .str "API_REQUEST_START"), ("payload", .str "T")] ::
      (((some okCont).map (fun f => f (.str "J"))).toList ++
        [.obj [("type", .str "API_REQUEST_END"), ("payload", .str "T")]])) :=
  ⟨⟨by decide, by decide⟩,
   dispatch_order_with_type "T" (by decide) (.str "/u") [("option", .str "value")]
     (some okCont) (some errCont) (.str "E") (.str "R") (.obj []) (.str "J")
     (by decide) id⟩

/-- Claim C10: a request promise that resolves with `null` or `undefined`
makes the `res.json` capability probe throw; the thrown error is routed into
the failure branch — the failure lifecycle action is dispatched when `type` is
present, `onFailure` receives the thrown error, and the returned promise
fulfills with `undefined`, so the caller never observes a success outcome. -/
theorem nullish_response_failure_branch (options fields fields2 : List (String × Value))
    (hty : lookupField fields2 "type" = none) (os os2 : Option (Value → Value))
    (g : Value → Value) (v u : Value) (hv : v.isNullish = true)
    (next : Value → Value) :
    (intercept ⟨constReq (.resolve (.plain v)), []⟩ next
        (.tagged ⟨("type", .str "T") :: ("url", u) :: fields, os, some g⟩)).dispatched =
      [.obj [("type", .str "API_REQUEST_START"), ("payload", .str "T")],
       .obj [("type", .str "API_REQUEST_FAILURE"), ("payload", jsonProbeError),
             ("error", .bool true)],
       g jsonProbeError,
       .obj [("type", .str "API_REQUEST_END"), ("payload", .str "T")]] ∧
    (intercept ⟨constReq (.resolve (.plain v)), []⟩ next
        (.tagged ⟨("type", .str "T") :: ("url", u) :: fields, os, some g⟩)).ret =
      .promise (.ok .undefined) ∧
    (intercept ⟨constReq (.resolve (.plain v)), options⟩ next
        (.tagged ⟨fields2, os2, some g⟩)).dispatched = [g jsonProbeError] ∧
    (intercept ⟨constReq (.resolve (.plain v)), options⟩ next
        (.tagged ⟨fields2, os2, some g⟩)).ret = .promise (.ok .undefined) := by
  refine ⟨?_, ?_, ?_, ?_⟩ <;>
    simp [intercept, constReq, normalizeRes, Value.truthy, getField, lookupField,
          Value.getProp, defaultsFields, assignFields, assignEntry, sourceFields,
          hty, hv]

/-- Witness for C10 at concrete inputs. -/
theorem nullish_response_failure_branch_witness :
    (lookupField [("url", .str "/u")] "type" = none ∧ Value.null.isNullish = true) ∧
    ((intercept ⟨constReq (.resolve (.plain .null)), []⟩ id
        (.tagged ⟨("type", .str "T") :: ("url", .str "/u") :: [], some okCont,
                  some errCont⟩)).dispatched =
      [.obj [("type", .str "API_REQUEST_START"), ("payload", .str "T")],
       .obj [("type", .str "API_REQUEST_FAILURE"), ("payload", jsonProbeError),
             ("error", .bool true)],
       errCont jsonProbeError,
       .obj [("type", .str "API_REQUEST_END"), ("payload", .str "T")]] ∧
     (intercept ⟨constReq (.resolve (.plain .null)), []⟩ id
        (.tagged ⟨("type", .str "T") :: ("url", .str "/u") :: [], some okCont,
                  some errCont⟩)).ret = .promise (.ok .undefined) ∧
     (intercept ⟨constReq (.resolve (.plain .null)), []⟩ id
        (.tagged ⟨[("url", .str "/u")], some okCont, some errCont⟩)).dispatched =
      [errCont jsonProbeError] ∧
     (intercept ⟨constReq (.resolve (.plain .null)), []⟩ id
        (.tagged ⟨[("url", .str "/u")], some okCont, some errCont⟩)).ret =
      .promise (.ok .undefined)) :=
  ⟨⟨rfl, by decide⟩,
   nullish_response_failure_branch [] [] [("url", .str "/u")] rfl
     (some okCont) (some okCont) errCont .null (.str "/u") (by decide) id⟩

/-- Claim C6, counterexample: a resolved value of `null` has no callable
`json` member, yet it is *not* used unchanged: the capability probe throws, so
`onSuccess` is never invoked (no dispatch happens although a callable
`onSuccess` is supplied) and the interceptor fulfills with `undefined`, not
with the resolved value. -/
theorem normalize_nullish_counterexample :
    (intercept ⟨constReq (.resolve (.plain .null)), []⟩ id
        (.tagged ⟨[("url", .str "/u")], some okCont, none⟩)).dispatched = [] ∧
    (intercept ⟨constReq (.resolve (.plain .null)), []⟩ id
        (.tagged ⟨[("url", .str "/u")], some okCont, none⟩)).ret =
      .promise (.ok .undefined) ∧
    Value.undefined ≠ Value.null :=
  ⟨rfl, rfl, fun h => Value.noConfusion h⟩

/-- Claim C6, amended: when the resolved value exposes a callable `json`
member, the decoded result — not the original wrapper — is what reaches
`onSuccess` and is the fulfillment value; when a *non-nullish* resolved value
has no such member it is used unchanged.  (Nullish resolved values are the one
exception: the capability probe itself throws and the failure path is taken,
see the C10 theorem.) -/
theorem normalize_json_capability (options fields : List (String × Value))
    (hty : lookupField fields "type" = none) (f : Value → Value)
    (of : Option (Value → Value)) (w d v : Value) (hv : v.isNullish = false)
    (next : Value → Value) :
    ((intercept ⟨constReq (.resolve (.withJson w (.resolve d))), options⟩ next
        (.tagged ⟨fields, some f, of⟩)).dispatched = [f d] ∧
     (intercept ⟨constReq (.resolve (.withJson w (.resolve d))), options⟩ next
        (.tagged ⟨fields, some f, of⟩)).ret = .promise (.ok d)) ∧
    ((intercept ⟨constReq (.resolve (.plain v)), options⟩ next
        (.tagged ⟨fields, some f, of⟩)).dispatched = [f v] ∧
     (intercept ⟨constReq (.resolve (.plain v)), options⟩ next
        (.tagged ⟨fields, some f, of⟩)).ret = .promise (.ok v)) := by
  refine ⟨⟨?_, ?_⟩, ⟨?_, ?_⟩⟩ <;>
    simp [intercept, constReq, normalizeRes, getField, hty, hv, Value.truthy]

/-- Witness for the amended C6 at concrete inputs. -/
theorem normalize_json_capability_witness :
    (lookupField [("url", .str "/u")] "type" = none ∧
      (Value.str "R").isNullish = false) ∧
    (((intercept ⟨constReq (.resolve (.withJson (.obj [("status", .num 200)])
          (.resolve (.str "some json")))), []⟩ id
        (.tagged ⟨[("url", .str "/u")], some okCont, none⟩)).dispatched =
          [okCont (.str "some json")] ∧
      (intercept ⟨constReq (.resolve (.withJson (.obj [("status", .num 200)])
          (.resolve (.str "some json")))), []⟩ id
        (.tagged ⟨[("url", .str "/u")], some okCont, none⟩)).ret =
          .promise (.ok (.str "some json"))) ∧
     ((intercept ⟨constReq (.resolve (.plain (.str "R"))), []⟩ id
        (.tagged ⟨[("url", .str "/u")], some okCont, none⟩)).dispatched =
          [okCont (.str "R")] ∧
      (intercept ⟨constReq (.resolve (.plain (.str "R"))), []⟩ id
        (.tagged ⟨[("url", .str "/u")], some okCont, none⟩)).ret =
          .promise (.ok (.str "R"))))  :=
  ⟨⟨rfl, by decide⟩,
   normalize_json_capability [] [("url", .str "/u")] rfl okCont none
     (.obj [("status", .num 200)]) (.str "some json") (.str "R") (by decide) id⟩

/-- Left-biased choice between two lookups, phrasing merge precedence. -/
def firstSome (x y : Option Value) : Option Value :=
  match x with
  | some v => some v
  | none => y

/-- `assignEntry` never changes the key of an entry. -/
theorem assignEntry_fst (b : List (String × Value)) (kv : String × Value) :
    (assignEntry b kv).1 = kv.1 := by
  unfold assignEntry
  cases lookupField b kv.1 <;> rfl

/-- The value `assignEntry` leaves in place: the source's on collision,
otherwise the original. -/
theorem assignEntry_snd (b : List (String × Value)) (kv : String × Value) :
    (assignEntry b kv).2 = (lookupField b kv.1).getD kv.2 := by
  unfold assignEntry
  cases lookupField b kv.1 <;> rfl

/-- Lookup distributes over list append, first list first. -/
theorem lookupField_append (a b : List (String × Value)) (k : String) :
    lookupField (a ++ b) k = firstSome (lookupField a k) (lookupField b k) := by
  induction a with
  | nil => simp [lookupField, firstSome]
  | cons kv rest ih =>
    by_cases h : kv.1 = k
    · simp [lookupField, h, firstSome]
    · simp [lookupField, h, ih]

/-- Lookup in the updated-target part of an `Object.assign`: each key found in
the target resolves to the source's value on collision, the target's
otherwise. -/
theorem lookupField_map_assignEntry (a b : List (String × Value)) (k : String) :
    lookupField (a.map (assignEntry b)) k =
      (lookupField a k).map (fun v => (lookupField b k).getD v) := by
  induction a with
  | nil => rfl
  | cons kv rest ih =>
    by_cases h : kv.1 = k
    · simp [lookupField, assignEntry_fst, assignEntry_snd, h]
    · simp [lookupField, assignEntry_fst, h, ih]

/-- Lookup in the appended-source part of an `Object.assign`: a key already in
the target never resolves there; a fresh key resolves as in the source. -/
theorem lookupField_filter_isNone (a b : List (String × Value)) (k : String) :
    lookupField (b.filter (fun kv => (lookupField a kv.1).isNone)) k =
      if (lookupField a k).isNone then lookupField b k else none := by
  induction b with
  | nil => simp [lookupField]
  | cons kv rest ih =>
    by_cases h : kv.1 = k
    · subst h
      cases hp : (lookupField a kv.1).isNone <;>
        simp [List.filter, lookupField, hp, ih]
    · cases hp : (lookupField a kv.1).isNone <;>
        simp [List.filter, lookupField, hp, h, ih]

/-- Observational content of `Object.assign({}, a, b)`: on every key, `b`
(the later source) wins, falling back to `a`. -/
theorem lookupField_assignFields (a b : List (String × Value)) (k : String) :
    lookupField (assignFields a b) k =
      firstSome (lookupField b k) (lookupField a k) := by
  unfold assignFields
  rw [lookupField_append, lookupField_map_assignEntry, lookupField_filter_isNone]
  cases ha : lookupField a k <;> cases hb : lookupField b k <;>
    simp [firstSome, ha, hb]

/-- Whatever the request outcome, the interceptor invokes the request
primitive exactly once, with the payload's `url` and the merged options
`Object.assign({}, options.requestDefaults, restConfig)`. -/
theorem intercept_requestCalls (m : Middleware) (next : Value → Value) (p : Payload) :
    (intercept m next (.tagged p)).requestCalls =
      [(getField p.fields "url",
        assignFields (sourceFields (getField m.options "requestDefaults"))
          (restConfigOf p.fields))] := by
  simp only [intercept]
  split <;> rfl

/-- Claim C5: for every intercepted Tagged Action, the request primitive is
invoked with `(url, mergedOptions)` where, on every key, `mergedOptions`
resolves to the action's extra field (every payload field other than `type`,
`url`, `onSuccess`, `onFailure`) when one exists, and to the configured
`requestDefaults` entry otherwise — the per-request extras win each collision. -/
theorem request_options_merge (options fields : List (String × Value))
    (os of : Option (Value → Value)) (r : ReqResult) (next : Value → Value) :
    ∃ merged,
      (intercept ⟨constReq r, options⟩ next
          (.tagged ⟨fields, os, of⟩)).requestCalls = [(getField fields "url", merged)] ∧
      ∀ k, lookupField merged k =
        firstSome (lookupField (restConfigOf fields) k)
          (lookupField (sourceFields (getField options "requestDefaults")) k) := by
  refine ⟨assignFields (sourceFields (getField options "requestDefaults"))
    (restConfigOf fields), ?_, ?_⟩
  · exact intercept_requestCalls ⟨constReq r, options⟩ next ⟨fields, os, of⟩
  · intro k
    exact lookupField_assignFields _ _ k
